import Mathlib

/-!
Shallow embedding of the LDAP-authenticating reverse proxy in `src/main.py`.

Modelling conventions:
* Timestamps (`time.time()`) and the TTL are modelled as integers; only
  order comparisons and the addition `now + CACHE_TTL` occur in the code,
  so the claims are insensitive to the numeric carrier.
* The Python dict `token_cache : Dict[str, float]` is modelled as an
  association list `List (String × Int)`; insertion overwrites the key and
  deletion removes it, matching dict semantics (lookup finds the unique
  binding).
* `verify_token_split` calls `time.time()` once (line 74) and
  `clean_expired_cache` calls it again (line 34); the two instants are the
  parameters `t` and `tClean`.
* The LDAP directory is a black-box oracle `bind : String → String →
  BindOutcome` giving, per (username, password), whether the single bind
  attempt is accepted, rejected, or raises.
* The record returned by `verify_token_split` carries instrumentation
  flags that mirror the control flow: whether the LDAP verifier was
  invoked, whether a cache insert happened, whether the sweep's removal
  condition fired, and whether the token-pattern regex was evaluated.
-/

set_option maxRecDepth 4000

/-- Python's `str.split(sep)` for a single-character separator, on the
character list of the string: splitting the empty string gives `[[]]`,
and every occurrence of `sep` opens a new group. -/
def splitChar (sep : Char) : List Char → List (List Char)
  | [] => [[]]
  | c :: rest =>
    let r := splitChar sep rest
    if c == sep then [] :: r
    else (c :: r.headD []) :: r.tail

/-- Python's `str.startswith`, on character lists: does `l` start with the
character sequence `p`? -/
def startsWithChars : List Char → List Char → Bool
  | _, [] => true
  | [], _ :: _ => false
  | c :: cs, p :: ps => c == p && startsWithChars cs ps

/-- Python's `str.split(":", 1)`: everything before the first `:` and
everything after it, or `none` when the string has no `:`. -/
def splitFirstColon : List Char → Option (List Char × List Char)
  | [] => none
  | c :: rest =>
    if c == ':' then some ([], rest)
    else match splitFirstColon rest with
      | some (u, p) => some (c :: u, p)
      | none => none

/-- One cache binding: raw credential string ↦ absolute expiry instant. -/
abbrev Cache := List (String × Int)

/-- Python dict insert `token_cache[k] = v`: overwrite any binding for `k`. -/
def cacheInsert (c : Cache) (k : String) (v : Int) : Cache :=
  (k, v) :: c.filter (fun kv => kv.1 != k)

/-- Python dict delete `del token_cache[k]`. -/
def cacheDelete (c : Cache) (k : String) : Cache :=
  c.filter (fun kv => kv.1 != k)

/-- `clean_expired_cache` (main.py lines 33-38): when the store holds more
than 1000 entries, delete every entry whose expiry is strictly before the
current time `t`; otherwise do nothing. -/
def clean_expired_cache (t : Int) (c : Cache) : Cache :=
  if 1000 < c.length then c.filter (fun kv => !decide (kv.2 < t)) else c

/-- A character allowed by `TOKEN_PATTERN`'s classes `[a-zA-Z0-9_-]`. -/
def isTokenChar (c : Char) : Bool :=
  c.isAlpha || c.isDigit || c == '_' || c == '-'

/-- `TOKEN_PATTERN.match` (main.py line 31): the token consists of exactly
one `:` separating two non-empty runs of `[a-zA-Z0-9_-]`.  (HTTP forbids
raw newlines in header values, so Python's `$`-before-trailing-newline
quirk is unreachable and not modelled.) -/
def matchesTokenPattern (s : String) : Bool :=
  match splitChar (':') s.data with
  | [u, p] => !u.isEmpty && !p.isEmpty && u.all isTokenChar && p.all isTokenChar
  | _ => false

/-- `auth_header.split(" ")[1]` (main.py line 66): the second
space-delimited field of the header.  Guarded by the `Bearer ` prefix
check, the header contains a space, so index 1 exists; the default is
never consulted on reachable inputs. -/
def extract_raw_token (h : String) : String :=
  String.mk ((splitChar (' ') h.data).getD 1 [])

/-- `raw_token.split(":", 1)` (main.py line 82): split at the first colon
only.  A token with no colon would make Python's two-variable unpacking
raise, but the call is guarded by the pattern check, which guarantees a
colon; the `none` arm is unreachable on reachable inputs. -/
def split_user_pass (raw : String) : String × String :=
  match splitFirstColon raw.data with
  | some (u, p) => (String.mk u, String.mk p)
  | none => (raw, "")

/-- Outcome of the single LDAP bind attempt, as seen by
`verify_ldap_dynamic`: `conn.bind()` returned truthy, returned falsy, or
an exception was raised. -/
inductive BindOutcome where
  | accepted
  | rejected
  | err
deriving DecidableEq

/-- Observable effects of one run of `verify_ldap_dynamic`: the boolean it
returns, and whether `conn.unbind()` was executed before returning. -/
structure LdapCall where
  result : Bool
  connectionClosed : Bool
deriving DecidableEq

/-- `verify_ldap_dynamic` (main.py lines 40-57).  `conn.unbind()` appears
only inside the `if conn.bind():` branch; the `else` branch and the
`except` handler return `False` without unbinding. -/
def verify_ldap_dynamic (o : BindOutcome) : LdapCall :=
  match o with
  | .accepted => { result := true, connectionClosed := true }
  | .rejected => { result := false, connectionClosed := false }
  | .err => { result := false, connectionClosed := false }

/-- Result of the gateway's auth dependency: pass, or an `HTTPException`
with a status code and detail string. -/
inductive AuthOutcome where
  | authorized
  | httpError (status : Nat) (detail : String)
deriving DecidableEq

/-- Status code of an `AuthOutcome`, `none` when authorized. -/
def AuthOutcome.status : AuthOutcome → Option Nat
  | .authorized => none
  | .httpError s _ => some s

/-- Result of one run of `verify_token_split`: its outcome, the cache it
leaves behind, and control-flow instrumentation (was the LDAP verifier
invoked, did a cache insert happen, did the sweep's removal branch fire,
was the token pattern evaluated). -/
structure VerifyResult where
  outcome : AuthOutcome
  cache : Cache
  ldapInvoked : Bool
  inserted : Bool
  sweepRan : Bool
  patternChecked : Bool
deriving DecidableEq

/-- Lines 82-89 of `verify_token_split`: split the token, perform the LDAP
bind; on success insert `raw ↦ t + ttl` and run the opportunistic sweep at
instant `tClean`; on failure raise 403. -/
def verifyLdapPhase (ttl t tClean : Int) (raw : String) (c : Cache)
    (bind : String → String → BindOutcome) : VerifyResult :=
  let up := split_user_pass raw
  if (verify_ldap_dynamic (bind up.1 up.2)).result then
    let c1 := cacheInsert c raw (t + ttl)
    { outcome := .authorized, cache := clean_expired_cache tClean c1,
      ldapInvoked := true, inserted := true,
      sweepRan := decide (1000 < c1.length), patternChecked := true }
  else
    { outcome := .httpError 403 "Invalid Username or Password", cache := c,
      ldapInvoked := true, inserted := false, sweepRan := false,
      patternChecked := true }

/-- `verify_token_split` (main.py lines 59-89): header-presence and
`Bearer ` prefix check (401), length check (400), pattern check (400),
cache lookup with expiry-triggered deletion, then LDAP verification. -/
def verify_token_split (ttl t tClean : Int) (authHeader : Option String)
    (c : Cache) (bind : String → String → BindOutcome) : VerifyResult :=
  match authHeader with
  | none =>
    { outcome := .httpError 401 "Missing API Key", cache := c,
      ldapInvoked := false, inserted := false, sweepRan := false,
      patternChecked := false }
  | some h =>
    if !(startsWithChars h.data ("Bearer ").data) then
      { outcome := .httpError 401 "Missing API Key", cache := c,
        ldapInvoked := false, inserted := false, sweepRan := false,
        patternChecked := false }
    else
      let raw := extract_raw_token h
      if 256 < raw.length then
        { outcome := .httpError 400 "API Key too long", cache := c,
          ldapInvoked := false, inserted := false, sweepRan := false,
          patternChecked := false }
      else if !(matchesTokenPattern raw) then
        { outcome := .httpError 400
            "Invalid API Key Format. Must be 'username:password' (alphanumeric only)",
          cache := c, ldapInvoked := false, inserted := false,
          sweepRan := false, patternChecked := true }
      else
        match List.lookup raw c with
        | some expiry =>
          if t < expiry then
            { outcome := .authorized, cache := c, ldapInvoked := false,
              inserted := false, sweepRan := false, patternChecked := true }
          else
            verifyLdapPhase ttl t tClean raw (cacheDelete c raw) bind
        | none => verifyLdapPhase ttl t tClean raw c bind

/-- An inbound HTTP request as the handler sees it: the method, the
captured `{path:path}` parameter (the request path without its leading
slash), the query string, the header dict (`dict(request.headers)`:
lowercase names, one value per name), and the raw body bytes. -/
structure InboundRequest where
  method : String
  path : String
  query : String
  headers : List (String × String)
  body : List Nat
deriving DecidableEq

/-- The outbound request handed to `client.build_request` (main.py line
101): method, URL path, URL query, explicit headers, body content. -/
structure OutboundRequest where
  method : String
  urlPath : String
  urlQuery : String
  headers : List (String × String)
  body : List Nat
deriving DecidableEq

/-- `forward_headers.pop(name, None)`: drop the binding for `name`. -/
def dropHeader (hs : List (String × String)) (name : String) :
    List (String × String) :=
  hs.filter (fun kv => kv.1 != name)

/-- The full path of the inbound request: FastAPI matched it against
`/{path:path}`, so it is `/` followed by the captured parameter. -/
def inboundPath (req : InboundRequest) : String := "/" ++ req.path

/-- Lines 94-101 of `proxy_ollama`: the outbound request is built from
`url = f"/{path}"` (no query component), the inbound body, and the
inbound headers with `host` and `content-length` popped. -/
def build_forward_request (req : InboundRequest) : OutboundRequest :=
  { method := req.method
    urlPath := "/" ++ req.path
    urlQuery := ""
    headers := dropHeader (dropHeader req.headers "host") "content-length"
    body := req.body }

/-- The route decorator's method list (main.py line 91). -/
def allowed_methods : List String := ["GET", "POST", "PUT", "DELETE", "OPTIONS"]

/-- Whether the catch-all route accepts an inbound method: FastAPI
dispatches to `proxy_ollama` only for methods in the decorator's list and
answers 405 otherwise. -/
def route_accepts (m : String) : Bool := allowed_methods.contains m

/-- `request.headers.get(name)` on the lowercase header dict. -/
def getHeader (req : InboundRequest) (name : String) : Option String :=
  List.lookup name req.headers

/-- Result of routing one inbound request: rejected at the router (405),
denied by the auth dependency, or forwarded to the backend. -/
inductive GatewayResult where
  | methodNotAllowed
  | denied (status : Nat) (detail : String) (cache : Cache)
  | forwarded (out : OutboundRequest) (cache : Cache)
deriving DecidableEq

/-- `proxy_ollama` (main.py lines 91-101) up to the backend send: route
dispatch on the method list, the `Depends(verify_token_split)` auth gate,
and on success the construction of the outbound request. -/
def proxy_ollama (ttl t tClean : Int) (req : InboundRequest) (c : Cache)
    (bind : String → String → BindOutcome) : GatewayResult :=
  if !(route_accepts req.method) then .methodNotAllowed
  else
    let vr := verify_token_split ttl t tClean (getHeader req "authorization") c bind
    match vr.outcome with
    | .authorized => .forwarded (build_forward_request req) vr.cache
    | .httpError s d => .denied s d vr.cache

/-! ## Helper lemmas about the embedded operations -/

/-- Reduction of `verify_token_split` on a fresh cache hit (main.py lines
75-78). -/
theorem verify_some_fresh (ttl t tClean : Int) (h : String) (c : Cache)
    (bind : String → String → BindOutcome) (e : Int)
    (hb : startsWithChars h.data ("Bearer ").data = true)
    (hlen : (extract_raw_token h).length ≤ 256)
    (hpat : matchesTokenPattern (extract_raw_token h) = true)
    (hlk : List.lookup (extract_raw_token h) c = some e)
    (hfresh : t < e) :
    verify_token_split ttl t tClean (some h) c bind =
      { outcome := .authorized, cache := c, ldapInvoked := false,
        inserted := false, sweepRan := false, patternChecked := true } := by
  simp only [verify_token_split, hb, hpat, hlk, Bool.not_true, Bool.false_eq_true,
    if_false, if_neg (Nat.not_lt.mpr hlen), if_pos hfresh]

/-- Reduction of `verify_token_split` on an expired cache hit (main.py
lines 79-80): the entry is deleted and control falls through to the LDAP
phase. -/
theorem verify_some_expired (ttl t tClean : Int) (h : String) (c : Cache)
    (bind : String → String → BindOutcome) (e : Int)
    (hb : startsWithChars h.data ("Bearer ").data = true)
    (hlen : (extract_raw_token h).length ≤ 256)
    (hpat : matchesTokenPattern (extract_raw_token h) = true)
    (hlk : List.lookup (extract_raw_token h) c = some e)
    (hexp : e ≤ t) :
    verify_token_split ttl t tClean (some h) c bind =
      verifyLdapPhase ttl t tClean (extract_raw_token h)
        (cacheDelete c (extract_raw_token h)) bind := by
  simp only [verify_token_split, hb, hpat, hlk, Bool.not_true, Bool.false_eq_true,
    if_false, if_neg (Nat.not_lt.mpr hlen), if_neg (Int.not_lt.mpr hexp)]

/-- Reduction of `verify_token_split` on a cache miss. -/
theorem verify_some_miss (ttl t tClean : Int) (h : String) (c : Cache)
    (bind : String → String → BindOutcome)
    (hb : startsWithChars h.data ("Bearer ").data = true)
    (hlen : (extract_raw_token h).length ≤ 256)
    (hpat : matchesTokenPattern (extract_raw_token h) = true)
    (hlk : List.lookup (extract_raw_token h) c = none) :
    verify_token_split ttl t tClean (some h) c bind =
      verifyLdapPhase ttl t tClean (extract_raw_token h) c bind := by
  simp only [verify_token_split, hb, hpat, hlk, Bool.not_true, Bool.false_eq_true,
    if_false, if_neg (Nat.not_lt.mpr hlen)]

/-- Reduction of `verify_token_split` when the token exceeds 256
characters (main.py lines 68-69). -/
theorem verify_some_too_long (ttl t tClean : Int) (h : String) (c : Cache)
    (bind : String → String → BindOutcome)
    (hb : startsWithChars h.data ("Bearer ").data = true)
    (hlen : 256 < (extract_raw_token h).length) :
    verify_token_split ttl t tClean (some h) c bind =
      { outcome := .httpError 400 "API Key too long", cache := c,
        ldapInvoked := false, inserted := false, sweepRan := false,
        patternChecked := false } := by
  simp only [verify_token_split, hb, Bool.not_true, Bool.false_eq_true, if_false,
    if_pos hlen]

/-- Reduction of `verify_token_split` when the token fails the pattern
check (main.py lines 71-72). -/
theorem verify_some_malformed (ttl t tClean : Int) (h : String) (c : Cache)
    (bind : String → String → BindOutcome)
    (hb : startsWithChars h.data ("Bearer ").data = true)
    (hlen : (extract_raw_token h).length ≤ 256)
    (hpat : matchesTokenPattern (extract_raw_token h) = false) :
    verify_token_split ttl t tClean (some h) c bind =
      { outcome := .httpError 400
          "Invalid API Key Format. Must be 'username:password' (alphanumeric only)",
        cache := c, ldapInvoked := false, inserted := false, sweepRan := false,
        patternChecked := true } := by
  simp only [verify_token_split, hb, hpat, Bool.not_true, Bool.not_false,
    Bool.false_eq_true, if_false, if_neg (Nat.not_lt.mpr hlen), if_true]

/-- Reduction of the LDAP phase when the bind is accepted (main.py lines
84-87). -/
theorem phase_success (ttl t tClean : Int) (raw : String) (c : Cache)
    (bind : String → String → BindOutcome)
    (hok : (verify_ldap_dynamic
      (bind (split_user_pass raw).1 (split_user_pass raw).2)).result = true) :
    verifyLdapPhase ttl t tClean raw c bind =
      { outcome := .authorized,
        cache := clean_expired_cache tClean (cacheInsert c raw (t + ttl)),
        ldapInvoked := true, inserted := true,
        sweepRan := decide (1000 < (cacheInsert c raw (t + ttl)).length),
        patternChecked := true } := by
  simp only [verifyLdapPhase, hok, if_true]

/-- Reduction of the LDAP phase when the bind is not accepted (main.py
lines 88-89). -/
theorem phase_failure (ttl t tClean : Int) (raw : String) (c : Cache)
    (bind : String → String → BindOutcome)
    (hko : (verify_ldap_dynamic
      (bind (split_user_pass raw).1 (split_user_pass raw).2)).result = false) :
    verifyLdapPhase ttl t tClean raw c bind =
      { outcome := .httpError 403 "Invalid Username or Password", cache := c,
        ldapInvoked := true, inserted := false, sweepRan := false,
        patternChecked := true } := by
  simp only [verifyLdapPhase, hko, Bool.false_eq_true, if_false]

/-- A binding that survives a filter is still found by `lookup`. -/
theorem lookup_filter_keep (p : String × Int → Bool) (c : Cache) (k : String)
    (v : Int) (h1 : List.lookup k c = some v) (h2 : p (k, v) = true) :
    List.lookup k (c.filter p) = some v := by
  induction c with
  | nil => simp at h1
  | cons kv rest ih =>
    obtain ⟨k1, v1⟩ := kv
    rw [List.lookup_cons] at h1
    by_cases hk : (k == k1) = true
    · simp only [hk] at h1
      obtain rfl := eq_of_beq hk
      obtain rfl : v1 = v := by simpa using h1
      simp [List.filter_cons, h2, List.lookup_cons]
    · simp only [Bool.not_eq_true] at hk
      simp only [hk] at h1
      by_cases hp : p (k1, v1) = true
      · simp [List.filter_cons, hp, List.lookup_cons, hk, ih h1]
      · simp only [Bool.not_eq_true] at hp
        simp [List.filter_cons, hp, ih h1]

/-- After `del token_cache[k]`, `k` is absent. -/
theorem lookup_cacheDelete_self (c : Cache) (k : String) :
    List.lookup k (cacheDelete c k) = none := by
  induction c with
  | nil => rfl
  | cons kv rest ih =>
    obtain ⟨k1, v1⟩ := kv
    by_cases hk : k1 = k
    · subst hk
      have h1 : ((k1, v1).1 != k1) = false := by simp
      simp only [cacheDelete, List.filter_cons, h1, Bool.false_eq_true, if_false]
      exact ih
    · have h1 : ((k1, v1).1 != k) = true := by simp [hk]
      have h2 : (k == k1) = false := by simp [Ne.symm hk]
      simp only [cacheDelete, List.filter_cons, h1, if_true, List.lookup_cons, h2]
      exact ih

/-- `del token_cache[k]` leaves every other key's binding unchanged. -/
theorem lookup_cacheDelete_ne (c : Cache) (k j : String) (hne : j ≠ k) :
    List.lookup j (cacheDelete c k) = List.lookup j c := by
  induction c with
  | nil => rfl
  | cons kv rest ih =>
    obtain ⟨k1, v1⟩ := kv
    by_cases hk : k1 = k
    · subst hk
      have h1 : ((k1, v1).1 != k1) = false := by simp
      have h2 : (j == k1) = false := by simp [hne]
      simp only [cacheDelete, List.filter_cons, h1, Bool.false_eq_true, if_false,
        List.lookup_cons, h2]
      exact ih
    · have h1 : ((k1, v1).1 != k) = true := by simp [hk]
      by_cases hj : j = k1
      · subst hj
        have h2 : (j == j) = true := by simp
        simp only [cacheDelete, List.filter_cons, h1, if_true, List.lookup_cons, h2]
      · have h2 : (j == k1) = false := by simp [hj]
        simp only [cacheDelete, List.filter_cons, h1, if_true, List.lookup_cons, h2]
        exact ih

/-- A binding whose expiry has not lapsed survives `clean_expired_cache`. -/
theorem lookup_clean_keep (t : Int) (c : Cache) (k : String) (v : Int)
    (h1 : List.lookup k c = some v) (h2 : ¬ (v < t)) :
    List.lookup k (clean_expired_cache t c) = some v := by
  unfold clean_expired_cache
  by_cases hlen : 1000 < c.length
  · rw [if_pos hlen]
    exact lookup_filter_keep _ c k v h1 (by simp [h2])
  · rw [if_neg hlen]; exact h1

/-- `token_cache[k] = v` makes `k` map to `v`. -/
theorem lookup_cacheInsert_self (c : Cache) (k : String) (v : Int) :
    List.lookup k (cacheInsert c k v) = some v := by
  simp [cacheInsert, List.lookup_cons]

theorem verify_none (ttl t tClean : Int) (c : Cache)
    (bind : String → String → BindOutcome) :
    verify_token_split ttl t tClean none c bind =
      { outcome := .httpError 401 "Missing API Key", cache := c,
        ldapInvoked := false, inserted := false, sweepRan := false,
        patternChecked := false } := rfl

theorem verify_not_bearer (ttl t tClean : Int) (h : String) (c : Cache)
    (bind : String → String → BindOutcome)
    (hb : startsWithChars h.data ("Bearer ").data = false) :
    verify_token_split ttl t tClean (some h) c bind =
      { outcome := .httpError 401 "Missing API Key", cache := c,
        ldapInvoked := false, inserted := false, sweepRan := false,
        patternChecked := false } := by
  simp only [verify_token_split, hb, Bool.not_false, if_true]

theorem phase_invoked (ttl t tClean : Int) (raw : String) (c : Cache)
    (bind : String → String → BindOutcome) :
    (verifyLdapPhase ttl t tClean raw c bind).ldapInvoked = true := by
  unfold verifyLdapPhase
  by_cases hres : (verify_ldap_dynamic
      (bind (split_user_pass raw).1 (split_user_pass raw).2)).result = true
  · simp only [hres, if_true]
  · simp only [Bool.not_eq_true] at hres
    simp only [hres, Bool.false_eq_true, if_false]

theorem phase_not_inserted_no_sweep (ttl t tClean : Int) (raw : String)
    (c : Cache) (bind : String → String → BindOutcome)
    (h : (verifyLdapPhase ttl t tClean raw c bind).inserted = false) :
    (verifyLdapPhase ttl t tClean raw c bind).sweepRan = false := by
  unfold verifyLdapPhase at h ⊢
  by_cases hres : (verify_ldap_dynamic
      (bind (split_user_pass raw).1 (split_user_pass raw).2)).result = true
  · simp [hres] at h
  · simp only [Bool.not_eq_true] at hres
    simp only [hres, Bool.false_eq_true, if_false]

theorem mem_clean_sub (t : Int) (c : Cache) (kv : String × Int)
    (h : kv ∈ clean_expired_cache t c) : kv ∈ c := by
  unfold clean_expired_cache at h
  by_cases hlen : 1000 < c.length
  · rw [if_pos hlen] at h
    exact List.mem_of_mem_filter h
  · rwa [if_neg hlen] at h

theorem mem_cacheInsert (c : Cache) (k : String) (v : Int) (kv : String × Int)
    (h : kv ∈ cacheInsert c k v) : kv = (k, v) ∨ kv ∈ c := by
  unfold cacheInsert at h
  rcases List.mem_cons.mp h with h1 | h1
  · exact Or.inl h1
  · exact Or.inr (List.mem_of_mem_filter h1)

theorem mem_cacheDelete_sub (c : Cache) (k : String) (kv : String × Int)
    (h : kv ∈ cacheDelete c k) : kv ∈ c :=
  List.mem_of_mem_filter h

theorem mem_phase_cache (ttl t tClean : Int) (raw : String) (c : Cache)
    (bind : String → String → BindOutcome) (kv : String × Int)
    (h : kv ∈ (verifyLdapPhase ttl t tClean raw c bind).cache) :
    kv.1 = raw ∨ kv ∈ c := by
  unfold verifyLdapPhase at h
  by_cases hres : (verify_ldap_dynamic
      (bind (split_user_pass raw).1 (split_user_pass raw).2)).result = true
  · simp only [hres, if_true] at h
    rcases mem_cacheInsert c raw (t + ttl) kv (mem_clean_sub tClean _ kv h) with h1 | h1
    · exact Or.inl (by rw [h1])
    · exact Or.inr h1
  · simp only [Bool.not_eq_true] at hres
    simp only [hres, Bool.false_eq_true, if_false] at h
    exact Or.inr h

theorem verify_success_any_cache (ttl t tClean : Int) (h : String) (c : Cache)
    (bind : String → String → BindOutcome)
    (hb : startsWithChars h.data ("Bearer ").data = true)
    (hlen : (extract_raw_token h).length ≤ 256)
    (hpat : matchesTokenPattern (extract_raw_token h) = true)
    (hok : (verify_ldap_dynamic (bind (split_user_pass (extract_raw_token h)).1
      (split_user_pass (extract_raw_token h)).2)).result = true) :
    (verify_token_split ttl t tClean (some h) c bind).outcome =
      AuthOutcome.authorized := by
  rcases hlk : List.lookup (extract_raw_token h) c with _ | e
  · rw [verify_some_miss ttl t tClean h c bind hb hlen hpat hlk,
      phase_success ttl t tClean _ c bind hok]
  · by_cases hfr : t < e
    · rw [verify_some_fresh ttl t tClean h c bind e hb hlen hpat hlk hfr]
    · rw [verify_some_expired ttl t tClean h c bind e hb hlen hpat hlk
        (Int.not_lt.mp hfr),
        phase_success ttl t tClean _ _ bind hok]

def sampleInbound : InboundRequest :=
  { method := "POST", path := "api/generate", query := "stream=true",
    headers := [("host", "example.com"), ("authorization", "Bearer alice:pw1"),
      ("accept", "application/json"), ("content-length", "2")],
    body := [123, 125] }

/-- C1 (counterexample): a request whose query string is non-empty is
forwarded with an empty outbound query: `url = f"/{path}"` never carries
`request.url.query`, so the outbound query differs from the inbound one. -/
theorem proxy_query_dropped_cex :
    (build_forward_request sampleInbound).urlQuery ≠ sampleInbound.query := by
  decide

/-- C1 (amended): the outbound request keeps the inbound method, path and
body bytes, its headers are exactly the inbound headers minus `host` and
`content-length` with all others passed through unmodified, but its query
string is always empty rather than the inbound query string. -/
theorem proxy_forward_request_amended (req : InboundRequest) :
    (build_forward_request req).method = req.method ∧
    (build_forward_request req).urlPath = inboundPath req ∧
    (build_forward_request req).body = req.body ∧
    (build_forward_request req).urlQuery = "" ∧
    (∀ kv, kv ∈ (build_forward_request req).headers ↔
      kv ∈ req.headers ∧ kv.1 ≠ "host" ∧ kv.1 ≠ "content-length") := by
  refine ⟨rfl, rfl, rfl, rfl, fun kv => ?_⟩
  simp only [build_forward_request, dropHeader, List.mem_filter, bne_iff_ne]
  tauto

/-- C2 (counterexample): for the header `Bearer a:b c` the bearer
credential — the raw string after the `Bearer ` prefix — is `a:b c`, which
does not match the pattern; yet the code takes `split(" ")[1] = "a:b"`,
invokes the directory verifier, and (with an accepting directory)
authorizes the request instead of denying it. -/
theorem credential_after_prefix_cex :
    matchesTokenPattern (String.mk (("Bearer a:b c").data.drop 7)) = false ∧
    (verify_token_split 1800 0 0 (some ("Bearer a:b c")) []
      (fun _ _ => BindOutcome.accepted)).ldapInvoked = true ∧
    (verify_token_split 1800 0 0 (some ("Bearer a:b c")) []
      (fun _ _ => BindOutcome.accepted)).outcome = AuthOutcome.authorized := by
  decide

/-- C2 (amended): for every Authorization header starting with `Bearer `
whose extracted token — the second space-delimited field of the header —
does not match exactly one `:` separating two non-empty runs of
`[A-Za-z0-9_-]`, the gateway denies with a 400 error, the directory
verifier is never invoked, and the cache is untouched. -/
theorem malformed_token_denied_amended (ttl t tClean : Int) (h : String)
    (c : Cache) (bind : String → String → BindOutcome)
    (hb : startsWithChars h.data ("Bearer ").data = true)
    (hpat : matchesTokenPattern (extract_raw_token h) = false) :
    (verify_token_split ttl t tClean (some h) c bind).outcome.status =
      some 400 ∧
    (verify_token_split ttl t tClean (some h) c bind).ldapInvoked = false ∧
    (verify_token_split ttl t tClean (some h) c bind).cache = c := by
  by_cases hlen : 256 < (extract_raw_token h).length
  · rw [verify_some_too_long ttl t tClean h c bind hb hlen]
    exact ⟨rfl, rfl, rfl⟩
  · rw [verify_some_malformed ttl t tClean h c bind hb (Nat.le_of_not_lt hlen) hpat]
    exact ⟨rfl, rfl, rfl⟩

/-- C2 (witness): concrete malformed token `a!b`. -/
theorem malformed_token_denied_witness :
    (verify_token_split 1800 0 0 (some ("Bearer a!b")) []
      (fun _ _ => BindOutcome.accepted)).outcome.status = some 400 ∧
    (verify_token_split 1800 0 0 (some ("Bearer a!b")) []
      (fun _ _ => BindOutcome.accepted)).ldapInvoked = false ∧
    (verify_token_split 1800 0 0 (some ("Bearer a!b")) []
      (fun _ _ => BindOutcome.accepted)).cache = [] :=
  malformed_token_denied_amended 1800 0 0 ("Bearer a!b") []
    (fun _ _ => BindOutcome.accepted) (by decide) (by decide)

/-- C3 (counterexample): when the bind is rejected, and likewise when the
bind raises, `verify_ldap_dynamic` returns without closing the bind
connection: `conn.unbind()` is only reached on the accepted path. -/
theorem ldap_connection_leak_cex :
    (verify_ldap_dynamic BindOutcome.rejected).connectionClosed = false ∧
    (verify_ldap_dynamic BindOutcome.err).connectionClosed = false := by
  decide

/-- C3 (amended): the bind connection is released before returning on the
bind-accepted exit path and only there; on the bind-rejected and
exception exit paths the function returns without closing it. -/
theorem ldap_connection_closed_iff_accepted (o : BindOutcome) :
    (verify_ldap_dynamic o).connectionClosed = true ↔
      o = BindOutcome.accepted := by
  cases o <;> simp [verify_ldap_dynamic]

/-- C5: cache lookup semantics at current time `t` for a syntactically
valid token: an entry with expiry strictly greater than `t` authorizes
without re-verification and without touching the cache; an entry with
expiry at most `t` is deleted and the request proceeds exactly as a miss,
forcing re-verification; no entry forces re-verification. -/
theorem cache_lookup_semantics (ttl t tClean : Int) (h : String) (c : Cache)
    (bind : String → String → BindOutcome)
    (hb : startsWithChars h.data ("Bearer ").data = true)
    (hlen : (extract_raw_token h).length ≤ 256)
    (hpat : matchesTokenPattern (extract_raw_token h) = true) :
    (∀ e, List.lookup (extract_raw_token h) c = some e →
      (t < e →
        verify_token_split ttl t tClean (some h) c bind =
          { outcome := .authorized, cache := c, ldapInvoked := false,
            inserted := false, sweepRan := false, patternChecked := true }) ∧
      (e ≤ t →
        verify_token_split ttl t tClean (some h) c bind =
          verify_token_split ttl t tClean (some h)
            (cacheDelete c (extract_raw_token h)) bind ∧
        (verify_token_split ttl t tClean (some h) c bind).ldapInvoked =
          true)) ∧
    (List.lookup (extract_raw_token h) c = none →
      (verify_token_split ttl t tClean (some h) c bind).ldapInvoked = true) := by
  constructor
  · intro e hlk
    constructor
    · intro hfr
      exact verify_some_fresh ttl t tClean h c bind e hb hlen hpat hlk hfr
    · intro hexp
      have h1 := verify_some_expired ttl t tClean h c bind e hb hlen hpat hlk hexp
      have h2 := verify_some_miss ttl t tClean h
        (cacheDelete c (extract_raw_token h)) bind hb hlen hpat
        (lookup_cacheDelete_self c (extract_raw_token h))
      refine ⟨by rw [h1, h2], ?_⟩
      rw [h1]
      exact phase_invoked ttl t tClean (extract_raw_token h) _ bind
  · intro hlk
    rw [verify_some_miss ttl t tClean h c bind hb hlen hpat hlk]
    exact phase_invoked ttl t tClean (extract_raw_token h) c bind

/-- C5 (witness): a fresh entry (expiry 10 > now 5) authorizes from cache
without invoking the (rejecting) directory. -/
theorem cache_lookup_semantics_witness :
    verify_token_split 1800 5 5 (some ("Bearer alice:pw1"))
      [(("alice:pw1"), 10)] (fun _ _ => BindOutcome.rejected) =
      { outcome := .authorized, cache := [(("alice:pw1"), 10)],
        ldapInvoked := false, inserted := false, sweepRan := false,
        patternChecked := true } :=
  ((cache_lookup_semantics 1800 5 5 ("Bearer alice:pw1")
      [(("alice:pw1"), 10)] (fun _ _ => BindOutcome.rejected)
      (by decide) (by decide) (by decide)).1 10 (by decide)).1 (by decide)

/-- Directory stub for witnesses: accepts exactly the pair
(`alice`, `good`) and rejects everything else. -/
def stubBind : String → String → BindOutcome :=
  fun u p => if u == ("alice") && p == ("good") then .accepted else .rejected

/-- C7: when the directory verifier returns false for a syntactically
valid credential that has no fresh cache entry, the request is denied
with a 403 error, nothing is inserted, the credential has no cache entry
afterwards, every other credential's entry is untouched, and any
subsequent valid credential the directory accepts is authorized. -/
theorem no_negative_caching (ttl t tClean : Int) (h : String) (c : Cache)
    (bind : String → String → BindOutcome)
    (hb : startsWithChars h.data ("Bearer ").data = true)
    (hlen : (extract_raw_token h).length ≤ 256)
    (hpat : matchesTokenPattern (extract_raw_token h) = true)
    (hnofresh : ∀ e, List.lookup (extract_raw_token h) c = some e → e ≤ t)
    (hko : (verify_ldap_dynamic (bind (split_user_pass (extract_raw_token h)).1
      (split_user_pass (extract_raw_token h)).2)).result = false) :
    (verify_token_split ttl t tClean (some h) c bind).outcome =
      AuthOutcome.httpError 403 "Invalid Username or Password" ∧
    (verify_token_split ttl t tClean (some h) c bind).inserted = false ∧
    List.lookup (extract_raw_token h)
      (verify_token_split ttl t tClean (some h) c bind).cache = none ∧
    (∀ k, k ≠ extract_raw_token h →
      List.lookup k (verify_token_split ttl t tClean (some h) c bind).cache =
        List.lookup k c) ∧
    (∀ h2 t2 tc2, startsWithChars h2.data ("Bearer ").data = true →
      (extract_raw_token h2).length ≤ 256 →
      matchesTokenPattern (extract_raw_token h2) = true →
      (verify_ldap_dynamic (bind (split_user_pass (extract_raw_token h2)).1
        (split_user_pass (extract_raw_token h2)).2)).result = true →
      (verify_token_split ttl t2 tc2 (some h2)
        (verify_token_split ttl t tClean (some h) c bind).cache bind).outcome =
        AuthOutcome.authorized) := by
  rcases hlk : List.lookup (extract_raw_token h) c with _ | e
  · rw [verify_some_miss ttl t tClean h c bind hb hlen hpat hlk,
      phase_failure ttl t tClean _ c bind hko]
    refine ⟨rfl, rfl, hlk, fun k _ => rfl, ?_⟩
    intro h2 t2 tc2 hb2 hlen2 hpat2 hok2
    exact verify_success_any_cache ttl t2 tc2 h2 _ bind hb2 hlen2 hpat2 hok2
  · rw [verify_some_expired ttl t tClean h c bind e hb hlen hpat hlk
        (hnofresh e hlk),
      phase_failure ttl t tClean _ _ bind hko]
    refine ⟨rfl, rfl, lookup_cacheDelete_self c _, ?_, ?_⟩
    · intro k hk
      exact lookup_cacheDelete_ne c _ k hk
    · intro h2 t2 tc2 hb2 hlen2 hpat2 hok2
      exact verify_success_any_cache ttl t2 tc2 h2 _ bind hb2 hlen2 hpat2 hok2

/-- C7 (witness): `bob:wrong` is rejected by the stub → 403; the
subsequent request `alice:good`, which the stub accepts, succeeds on the
cache left behind. -/
theorem no_negative_caching_witness :
    (verify_token_split 1800 0 0 (some ("Bearer bob:wrong")) []
      stubBind).outcome =
      AuthOutcome.httpError 403 "Invalid Username or Password" ∧
    (verify_token_split 1800 10 10 (some ("Bearer alice:good"))
      (verify_token_split 1800 0 0 (some ("Bearer bob:wrong")) []
        stubBind).cache stubBind).outcome = AuthOutcome.authorized := by
  have hm := no_negative_caching 1800 0 0 ("Bearer bob:wrong") [] stubBind
    (by decide) (by decide) (by decide)
    (fun e he => Option.noConfusion he) (by decide)
  exact ⟨hm.1, hm.2.2.2.2 ("Bearer alice:good") 10 10
    (by decide) (by decide) (by decide) (by decide)⟩

/-- C8: for every token longer than 256 characters the gateway denies
with the 400 "API Key too long" error, the token pattern is never
evaluated, the directory verifier is never invoked, and the cache is
untouched. -/
theorem too_long_before_pattern (ttl t tClean : Int) (h : String) (c : Cache)
    (bind : String → String → BindOutcome)
    (hb : startsWithChars h.data ("Bearer ").data = true)
    (hlen : 256 < (extract_raw_token h).length) :
    (verify_token_split ttl t tClean (some h) c bind).outcome =
      AuthOutcome.httpError 400 "API Key too long" ∧
    (verify_token_split ttl t tClean (some h) c bind).patternChecked = false ∧
    (verify_token_split ttl t tClean (some h) c bind).ldapInvoked = false ∧
    (verify_token_split ttl t tClean (some h) c bind).cache = c := by
  rw [verify_some_too_long ttl t tClean h c bind hb hlen]
  exact ⟨rfl, rfl, rfl, rfl⟩

/-- A 257-character token for the C8 witness. -/
def longToken : String := String.mk (List.replicate 257 ('a'))

/-- C8 (witness): a 257-character token is rejected before the pattern
check. -/
theorem too_long_before_pattern_witness :
    (verify_token_split 1800 0 0 (some ("Bearer " ++ longToken)) []
      stubBind).outcome = AuthOutcome.httpError 400 "API Key too long" ∧
    (verify_token_split 1800 0 0 (some ("Bearer " ++ longToken)) []
      stubBind).patternChecked = false ∧
    (verify_token_split 1800 0 0 (some ("Bearer " ++ longToken)) []
      stubBind).ldapInvoked = false ∧
    (verify_token_split 1800 0 0 (some ("Bearer " ++ longToken)) []
      stubBind).cache = [] :=
  too_long_before_pattern 1800 0 0 ("Bearer " ++ longToken) [] stubBind
    (by decide) (by decide)

/-- A PATCH request with a valid credential, for the C9 counterexample. -/
def patchRequest : InboundRequest :=
  { method := "PATCH", path := "api/tags", query := "",
    headers := [("authorization", "Bearer alice:good")], body := [] }

/-- C9 (counterexample): PATCH is an HTTP method, yet the route's method
list omits it, so a PATCH request with a valid credential is rejected by
the router (405) instead of being forwarded. -/
theorem patch_method_rejected_cex :
    route_accepts ("PATCH") = false ∧
    proxy_ollama 1800 0 0 patchRequest [] stubBind =
      GatewayResult.methodNotAllowed := by
  decide

/-- C9 (amended): the route accepts exactly the decorator's methods GET,
POST, PUT, DELETE and OPTIONS, on any path; a request whose method is in
that list and whose Authorization header passes the gateway's checks is
forwarded to the backend. -/
theorem allowed_methods_forwarded_amended (ttl t tClean : Int)
    (req : InboundRequest) (c : Cache)
    (bind : String → String → BindOutcome) :
    (∀ m, m ∈ allowed_methods → route_accepts m = true) ∧
    (route_accepts req.method = true →
      (verify_token_split ttl t tClean (getHeader req ("authorization")) c
        bind).outcome = AuthOutcome.authorized →
      proxy_ollama ttl t tClean req c bind =
        GatewayResult.forwarded (build_forward_request req)
          (verify_token_split ttl t tClean (getHeader req ("authorization")) c
            bind).cache) := by
  constructor
  · intro m hm
    simp [route_accepts, hm]
  · intro hm hauth
    unfold proxy_ollama
    rw [hm]
    simp only [Bool.not_true, Bool.false_eq_true, if_false, hauth]

/-- A GET request with a valid credential, for the C9 witness. -/
def getRequest : InboundRequest :=
  { method := "GET", path := "api/tags", query := "",
    headers := [("authorization", "Bearer alice:good")], body := [] }

/-- C9 (witness): a GET request with a credential the directory accepts is
forwarded. -/
theorem allowed_methods_forwarded_witness :
    proxy_ollama 1800 0 0 getRequest [] stubBind =
      GatewayResult.forwarded (build_forward_request getRequest)
        (verify_token_split 1800 0 0 (getHeader getRequest ("authorization"))
          [] stubBind).cache :=
  (allowed_methods_forwarded_amended 1800 0 0 getRequest [] stubBind).2
    (by decide) (by decide)

/-- A cache key the gateway could have inserted: at most 256 characters
and matching the credential pattern. -/
def ValidKey (k : String) : Prop :=
  k.length ≤ 256 ∧ matchesTokenPattern k = true

instance : DecidablePred ValidKey :=
  fun k => inferInstanceAs (Decidable (k.length ≤ 256 ∧ matchesTokenPattern k = true))

/-- C10: every operation that mutates the cache — one run of
`verify_token_split` with any header, and `clean_expired_cache` —
preserves the invariant that every key in the cache is at most 256
characters and matches the credential pattern. -/
theorem cache_key_invariant :
    (∀ (ttl t tClean : Int) (auth : Option String) (c : Cache)
      (bind : String → String → BindOutcome),
      (∀ kv ∈ c, ValidKey kv.1) →
      ∀ kv ∈ (verify_token_split ttl t tClean auth c bind).cache,
        ValidKey kv.1) ∧
    (∀ (t : Int) (c : Cache),
      (∀ kv ∈ c, ValidKey kv.1) →
      ∀ kv ∈ clean_expired_cache t c, ValidKey kv.1) := by
  constructor
  · intro ttl t tClean auth c bind hc kv hkv
    cases auth with
    | none =>
      rw [verify_none ttl t tClean c bind] at hkv
      exact hc kv hkv
    | some h =>
      by_cases hb : startsWithChars h.data ("Bearer ").data = true
      · by_cases hlen : 256 < (extract_raw_token h).length
        · rw [verify_some_too_long ttl t tClean h c bind hb hlen] at hkv
          exact hc kv hkv
        · have hlen2 := Nat.le_of_not_lt hlen
          by_cases hpat : matchesTokenPattern (extract_raw_token h) = true
          · have hval : ValidKey (extract_raw_token h) := ⟨hlen2, hpat⟩
            rcases hlk : List.lookup (extract_raw_token h) c with _ | e
            · rw [verify_some_miss ttl t tClean h c bind hb hlen2 hpat hlk]
                at hkv
              rcases mem_phase_cache ttl t tClean _ c bind kv hkv with h1 | h1
              · rw [h1]; exact hval
              · exact hc kv h1
            · by_cases hfr : t < e
              · rw [verify_some_fresh ttl t tClean h c bind e hb hlen2 hpat hlk
                  hfr] at hkv
                exact hc kv hkv
              · rw [verify_some_expired ttl t tClean h c bind e hb hlen2 hpat
                  hlk (Int.not_lt.mp hfr)] at hkv
                rcases mem_phase_cache ttl t tClean _ _ bind kv hkv with h1 | h1
                · rw [h1]; exact hval
                · exact hc kv (mem_cacheDelete_sub c _ kv h1)
          · have hpat2 : matchesTokenPattern (extract_raw_token h) = false := by
              simpa using hpat
            rw [verify_some_malformed ttl t tClean h c bind hb hlen2 hpat2]
              at hkv
            exact hc kv hkv
      · have hb2 : startsWithChars h.data ("Bearer ").data = false := by
          simpa using hb
        rw [verify_not_bearer ttl t tClean h c bind hb2] at hkv
        exact hc kv hkv
  · intro t c hc kv hkv
    exact hc kv (mem_clean_sub t c kv hkv)

/-- C10 (witness): after a successful verification of `x:y` on a cache
already holding the valid key `a:b`, the inserted key is itself valid. -/
theorem cache_key_invariant_witness : ValidKey ("x:y") :=
  cache_key_invariant.1 1800 0 0 (some ("Bearer x:y")) [(("a:b"), 9)]
    (fun _ _ => BindOutcome.accepted) (by decide) (("x:y"), 1800) (by decide)

/-- A store of 1001 lapsed entries, for the C6 witness. -/
def bigCache : Cache := List.replicate 1001 (("stale:entry"), 0)

/-- C6: the sweep removes entries only when the store holds more than
1000 entries (otherwise it is the identity); when it runs it keeps
exactly the entries whose expiry has not already lapsed at the sweep's
start time; and within `verify_token_split` the sweep's removal branch
can fire only on a run that performed a cache insert. -/
theorem sweep_spec :
    (∀ (t : Int) (c : Cache), c.length ≤ 1000 →
      clean_expired_cache t c = c) ∧
    (∀ (t : Int) (c : Cache) (kv : String × Int), 1000 < c.length →
      (kv ∈ clean_expired_cache t c ↔ kv ∈ c ∧ ¬ (kv.2 < t))) ∧
    (∀ (ttl t tClean : Int) (auth : Option String) (c : Cache)
      (bind : String → String → BindOutcome),
      (verify_token_split ttl t tClean auth c bind).inserted = false →
      (verify_token_split ttl t tClean auth c bind).sweepRan = false) := by
  refine ⟨?_, ?_, ?_⟩
  · intro t c hlen
    unfold clean_expired_cache
    rw [if_neg (Nat.not_lt.mpr hlen)]
  · intro t c kv hlen
    unfold clean_expired_cache
    rw [if_pos hlen]
    simp [List.mem_filter]
  · intro ttl t tClean auth c bind hins
    cases auth with
    | none => rfl
    | some h =>
      by_cases hb : startsWithChars h.data ("Bearer ").data = true
      · by_cases hlen : 256 < (extract_raw_token h).length
        · rw [verify_some_too_long ttl t tClean h c bind hb hlen]
        · have hlen2 := Nat.le_of_not_lt hlen
          by_cases hpat : matchesTokenPattern (extract_raw_token h) = true
          · rcases hlk : List.lookup (extract_raw_token h) c with _ | e
            · rw [verify_some_miss ttl t tClean h c bind hb hlen2 hpat hlk]
                at hins ⊢
              exact phase_not_inserted_no_sweep ttl t tClean _ c bind hins
            · by_cases hfr : t < e
              · rw [verify_some_fresh ttl t tClean h c bind e hb hlen2 hpat
                  hlk hfr]
              · rw [verify_some_expired ttl t tClean h c bind e hb hlen2 hpat
                  hlk (Int.not_lt.mp hfr)] at hins ⊢
                exact phase_not_inserted_no_sweep ttl t tClean _ _ bind hins
          · have hpat2 : matchesTokenPattern (extract_raw_token h) = false := by
              simpa using hpat
            rw [verify_some_malformed ttl t tClean h c bind hb hlen2 hpat2]
      · have hb2 : startsWithChars h.data ("Bearer ").data = false := by
          simpa using hb
        rw [verify_not_bearer ttl t tClean h c bind hb2]

set_option maxRecDepth 100000 in
/-- C6 (witness): a small store is left untouched; on a 1001-entry store
of lapsed entries membership after the sweep is as characterised; and a
run that inserts nothing sweeps nothing. -/
theorem sweep_spec_witness :
    clean_expired_cache 5 [(("a:b"), 1)] = [(("a:b"), 1)] ∧
    ((("stale:entry"), (0 : Int)) ∈ clean_expired_cache 1 bigCache ↔
      (("stale:entry"), (0 : Int)) ∈ bigCache ∧ ¬ ((0 : Int) < 1)) ∧
    (verify_token_split 1800 0 0 (some ("Bearer bob:wrong")) []
      stubBind).sweepRan = false :=
  ⟨sweep_spec.1 5 [(("a:b"), 1)] (by decide),
   sweep_spec.2.1 1 bigCache (("stale:entry"), 0) (by decide),
   sweep_spec.2.2 1800 0 0 (some ("Bearer bob:wrong")) [] stubBind (by decide)⟩

/-- N identical requests replayed through the gateway: fold
`verify_token_split` over a list of (request time, sweep time) pairs with
a fixed Authorization header and directory, threading the cache and
accumulating the number of directory invocations and whether every
request was authorized. -/
def runRequests (ttl : Int) (auth : Option String)
    (bind : String → String → BindOutcome) :
    List (Int × Int) → Cache → Nat → Bool → Cache × Nat × Bool
  | [], c, n, ok => (c, n, ok)
  | (t, tClean) :: rest, c, n, ok =>
    let r := verify_token_split ttl t tClean auth c bind
    runRequests ttl auth bind rest r.cache
      (n + (if r.ldapInvoked then 1 else 0))
      (ok && decide (r.outcome = AuthOutcome.authorized))

/-- While the cache holds an entry for the token whose expiry is beyond
every remaining request time, replaying the requests changes nothing:
no directory call, every request authorized, cache untouched. -/
theorem runRequests_all_fresh (ttl : Int) (h : String)
    (bind : String → String → BindOutcome) (e : Int)
    (hb : startsWithChars h.data ("Bearer ").data = true)
    (hlen : (extract_raw_token h).length ≤ 256)
    (hpat : matchesTokenPattern (extract_raw_token h) = true) :
    ∀ (times : List (Int × Int)) (c : Cache) (n : Nat) (ok : Bool),
      List.lookup (extract_raw_token h) c = some e →
      (∀ p ∈ times, p.1 < e) →
      runRequests ttl (some h) bind times c n ok = (c, n, ok) := by
  intro times
  induction times with
  | nil => intro c n ok _ _; rfl
  | cons p rest ih =>
    intro c n ok hlk hlt
    obtain ⟨t, tc⟩ := p
    have hfr : t < e := hlt (t, tc) (List.mem_cons_self _ _)
    have hstep := verify_some_fresh ttl t tc h c bind e hb hlen hpat hlk hfr
    simp only [runRequests, hstep]
    simp only [Bool.false_eq_true, if_false, Nat.add_zero, decide_eq_true_eq,
      Bool.and_true, decide_True]
    exact ih c n ok hlk (fun q hq => hlt q (List.mem_cons_of_mem _ hq))

/-- C4: starting from a cache with no entry for the credential, a first
request at time `t1` that the directory accepts inserts the entry; across
the whole sequence of identical requests whose times lie before
`t1 + ttl` (and whose first sweep instant does not exceed the inserted
expiry), the directory is invoked exactly once and every request is
authorized — later requests are served from the cache. -/
theorem cache_idempotence (ttl t1 tc1 : Int) (h : String) (c : Cache)
    (bind : String → String → BindOutcome) (rest : List (Int × Int))
    (hb : startsWithChars h.data ("Bearer ").data = true)
    (hlen : (extract_raw_token h).length ≤ 256)
    (hpat : matchesTokenPattern (extract_raw_token h) = true)
    (hok : (verify_ldap_dynamic (bind (split_user_pass (extract_raw_token h)).1
      (split_user_pass (extract_raw_token h)).2)).result = true)
    (hmiss : List.lookup (extract_raw_token h) c = none)
    (hsweep : tc1 ≤ t1 + ttl)
    (hrest : ∀ p ∈ rest, p.1 < t1 + ttl) :
    (runRequests ttl (some h) bind ((t1, tc1) :: rest) c 0 true).2.1 = 1 ∧
    (runRequests ttl (some h) bind ((t1, tc1) :: rest) c 0 true).2.2 =
      true := by
  have hstep : verify_token_split ttl t1 tc1 (some h) c bind =
      { outcome := .authorized,
        cache := clean_expired_cache tc1
          (cacheInsert c (extract_raw_token h) (t1 + ttl)),
        ldapInvoked := true, inserted := true,
        sweepRan := decide
          (1000 < (cacheInsert c (extract_raw_token h) (t1 + ttl)).length),
        patternChecked := true } := by
    rw [verify_some_miss ttl t1 tc1 h c bind hb hlen hpat hmiss,
      phase_success ttl t1 tc1 _ c bind hok]
  have hlk2 : List.lookup (extract_raw_token h)
      (clean_expired_cache tc1
        (cacheInsert c (extract_raw_token h) (t1 + ttl))) =
      some (t1 + ttl) :=
    lookup_clean_keep tc1 _ _ _
      (lookup_cacheInsert_self c (extract_raw_token h) (t1 + ttl))
      (Int.not_lt.mpr hsweep)
  simp only [runRequests, hstep]
  rw [runRequests_all_fresh ttl h bind (t1 + ttl) hb hlen hpat rest _ _ _
    hlk2 hrest]
  exact ⟨rfl, rfl⟩

/-- C4 (witness): three identical requests at times 0, 5 and 100 inside
the TTL window invoke the accepting directory exactly once and are all
authorized. -/
theorem cache_idempotence_witness :
    (runRequests 1800 (some ("Bearer alice:good")) stubBind
      [(0, 0), (5, 5), (100, 100)] [] 0 true).2.1 = 1 ∧
    (runRequests 1800 (some ("Bearer alice:good")) stubBind
      [(0, 0), (5, 5), (100, 100)] [] 0 true).2.2 = true :=
  cache_idempotence 1800 0 0 ("Bearer alice:good") [] stubBind
    [(5, 5), (100, 100)] (by decide) (by decide) (by decide) (by decide)
    (by decide) (by decide) (by decide)
